import Mathlib

/-!
Shallow embedding of the hue-mcp command server (src/src/server.ts).

The server is a newline-delimited JSON command dispatcher: a per-connection
byte accumulator extracts newline-terminated messages, each message is JSON
decoded into an `MCPCommand` and interpreted by `handleCommand`, which calls
the Hue bridge adapter and produces an `MCPResponse` written back on the
connection.  The `disco` command starts a detached periodic timer job.

Modelling choices:
* Bridge adapter calls are recorded in order in a `List BridgeCall`; the
  outcome of each adapter operation is supplied by a `Bridge` record whose
  operations return `Except String` (an exception with message, or success).
* JavaScript numbers that the code treats as integers are modelled as `Int`;
  `Math.round` on the two arithmetic expressions in the source is modelled
  exactly over `ℚ` (`jsRound`).
* JS truthiness tests (`!command.lightId`, `command.times || 3`, ...) are
  modelled by `strFalsy` / `numFalsy` / `jsOrNum`; the strict
  `command.brightness === undefined` test is modelled by `Option.isNone`.
* An exception escaping `handleCommand` (only possible in the un-guarded
  `get_groups` / `get_scenes` awaits) is the `.error` case of
  `HCResult.response`; exceptions caught inside a branch become ordinary
  `MCPResponse.err` responses, exactly as the per-branch try/catch does.
-/

namespace HueMCP

/-- JS truthiness of an optional string: `undefined` and `""` are falsy. -/
def strFalsy : Option String → Bool
  | none => true
  | some s => s == ""

/-- JS truthiness of an optional number: `undefined` and `0` are falsy. -/
def numFalsy : Option Int → Bool
  | none => true
  | some n => n == 0

/-- The JS defaulting idiom `x || d` on an optional number field:
absent or zero yields the default. -/
def jsOrNum : Option Int → Int → Int
  | none, d => d
  | some n, d => if n == 0 then d else n

/-- The JS defaulting idiom `s || d` on strings (`error.message || '...'`):
the empty string falls back to the default. -/
def jsOrStr (s d : String) : String := if s == "" then d else s

/-- `Math.round`: round half toward positive infinity. -/
def jsRound (q : ℚ) : ℤ := ⌊q + 1 / 2⌋

/-- The decoded command object (interface MCPCommand, server.ts lines 4-18). -/
structure MCPCommand where
  type : String
  lightId : Option String := none
  color : Option (Int × Int × Int) := none
  times : Option Int := none
  brightness : Option Int := none
  effectType : Option String := none
  transitionTime : Option Int := none
  temperature : Option Int := none
  scene : Option String := none
  group : Option String := none
  duration : Option Int := none
  speed : Option Int := none
deriving Repr, DecidableEq

/-- The partial state object passed to `setLightState`: only the fields the
source actually sends in some branch. -/
structure LightStateArg where
  «on» : Option Bool := none
  bri : Option Int := none
  rgb : Option (Int × Int × Int) := none
  effect : Option String := none
  ct : Option Int := none
  transitiontime : Option Int := none
deriving Repr, DecidableEq

/-- The partial state object built in the `set_group_state` branch
(server.ts lines 325-331). -/
structure GroupStateArg where
  rgb : Option (Int × Int × Int) := none
  bri : Option Int := none
  ct : Option Int := none
  effect : Option String := none
deriving Repr, DecidableEq

/-- A light object as returned by the bridge SDK; the opaque bridge-reported
state snapshot is modelled as a `String` blob. -/
structure LightObj where
  id : String
  name : String
  state : String
deriving Repr, DecidableEq

/-- A group object as returned by the bridge SDK. -/
structure GroupObj where
  id : String
  name : String
  lights : List String
  state : String
deriving Repr, DecidableEq

/-- A scene object as returned by the bridge SDK. -/
structure SceneObj where
  id : String
  name : String
  lights : List String
deriving Repr, DecidableEq

/-- The projection of a light placed in a `lights_list` response
(server.ts lines 165-169). -/
structure LightProj where
  id : String
  name : String
  state : String
deriving Repr, DecidableEq

/-- The projection of a group placed in a `groups_list` response. -/
structure GroupProj where
  id : String
  name : String
  lights : List String
  state : String
deriving Repr, DecidableEq

/-- The projection of a scene placed in a `scenes_list` response. -/
structure SceneProj where
  id : String
  name : String
  lights : List String
deriving Repr, DecidableEq

def projLight (l : LightObj) : LightProj := ⟨l.id, l.name, l.state⟩

def projGroup (g : GroupObj) : GroupProj := ⟨g.id, g.name, g.lights, g.state⟩

def projScene (s : SceneObj) : SceneProj := ⟨s.id, s.name, s.lights⟩

/-- One call made to the Bridge Client Adapter. -/
inductive BridgeCall
  | getAllGroups
  | getAllScenes
  | setLightState (id : String) (s : LightStateArg)
  | setGroupState (id : String) (s : GroupStateArg)
  | activateScene (id : String)
deriving Repr, DecidableEq

/-- The bridge adapter: data returned by the fetching operations and the
outcome of each state-changing operation (`.error e` models a thrown
exception carrying message `e`). -/
structure Bridge where
  lightsData : List LightObj
  groupsData : Except String (List GroupObj)
  scenesData : Except String (List SceneObj)
  setLight : String → LightStateArg → Except String Unit
  activateSceneResult : String → Except String Unit

/-- A response object (interface MCPResponse, discriminated by `type`). -/
inductive MCPResponse
  | lightsList (lights : List LightProj)
  | groupsList (groups : List GroupProj)
  | scenesList (scenes : List SceneProj)
  | success
  | err (error : String)
deriving Repr, DecidableEq

/-- The module-level mutable state relevant to command handling: the light
list cached by `initializeHueBridge` (server.ts lines 25-28, 107). -/
structure ServerState where
  lights : List LightObj
deriving Repr, DecidableEq

/-- The detached periodic job registered by the `disco` branch. -/
structure DiscoJob where
  lightId : String
  duration : Int
  speed : Int
deriving Repr, DecidableEq

/-- The result of `handleCommand`: the response (or an exception escaping the
handler), the adapter calls made in order, the module state afterwards, and
the disco job started, if any. -/
structure HCResult where
  response : Except String MCPResponse
  calls : List BridgeCall
  newState : ServerState
  job : Option DiscoJob := none

/-- `initializeHueBridge` (server.ts lines 94-114): fetches all lights once
and caches them in the module state. -/
def initializeHueBridge (bridge : Bridge) : ServerState :=
  { lights := bridge.lightsData }

/-- `case 'get_lights'` (lines 162-170): serves the cached module-state light
list, making no adapter call. -/
def getLightsBranch (_command : MCPCommand) (_bridge : Bridge) (st : ServerState) : HCResult :=
  { response := .ok (.lightsList (st.lights.map projLight)), calls := [], newState := st }

/-- `case 'get_groups'` (lines 172-182): the un-guarded `await` means a thrown
fetch exception escapes `handleCommand`. -/
def getGroupsBranch (_command : MCPCommand) (bridge : Bridge) (st : ServerState) : HCResult :=
  match bridge.groupsData with
  | .error e => { response := .error e, calls := [.getAllGroups], newState := st }
  | .ok groups =>
      { response := .ok (.groupsList (groups.map projGroup)),
        calls := [.getAllGroups], newState := st }

/-- `case 'get_scenes'` (lines 184-193): likewise un-guarded. -/
def getScenesBranch (_command : MCPCommand) (bridge : Bridge) (st : ServerState) : HCResult :=
  match bridge.scenesData with
  | .error e => { response := .error e, calls := [.getAllScenes], newState := st }
  | .ok scenes =>
      { response := .ok (.scenesList (scenes.map projScene)),
        calls := [.getAllScenes], newState := st }

/-- `case 'set_color'` (lines 195-217). -/
def setColorBranch (command : MCPCommand) (bridge : Bridge) (st : ServerState) : HCResult :=
  if strFalsy command.lightId || command.color.isNone then
    { response := .ok (.err "Missing lightId or color"), calls := [], newState := st }
  else
    let lid := command.lightId.getD ""
    let c := command.color.getD (0, 0, 0)
    let arg : LightStateArg := { «on» := some true, bri := some 254, rgb := some c }
    match bridge.setLight lid arg with
    | .ok _ =>
        { response := .ok .success, calls := [.setLightState lid arg], newState := st }
    | .error e =>
        { response := .ok (.err (jsOrStr e "Failed to set light color")),
          calls := [.setLightState lid arg], newState := st }

/-- The on-state sent in each flash cycle (lines 229-233 and 240-244). -/
def flashOnState (c : Int × Int × Int) : LightStateArg :=
  { «on» := some true, bri := some 254, rgb := some c }

/-- The off-state sent in each flash cycle (lines 235-237). -/
def flashOffState : LightStateArg := { «on» := some false }

/-- The `for` loop of the flash branch (lines 228-239): each iteration sends
the on-state then the off-state; a thrown exception aborts the loop with its
message. -/
def flashLoop (bridge : Bridge) (lid : String) (c : Int × Int × Int) :
    Nat → List BridgeCall × Option String
  | 0 => ([], none)
  | n + 1 =>
    match bridge.setLight lid (flashOnState c) with
    | .error e => ([.setLightState lid (flashOnState c)], some e)
    | .ok _ =>
      match bridge.setLight lid flashOffState with
      | .error e =>
          ([.setLightState lid (flashOnState c), .setLightState lid flashOffState], some e)
      | .ok _ =>
          let r := flashLoop bridge lid c n
          (.setLightState lid (flashOnState c) :: .setLightState lid flashOffState :: r.1, r.2)

/-- `case 'flash'` (lines 219-251): `times` cycles (default 3 via `||`), then
one final on-call leaving the light on at the requested color. -/
def flashBranch (command : MCPCommand) (bridge : Bridge) (st : ServerState) : HCResult :=
  if strFalsy command.lightId || command.color.isNone then
    { response := .ok (.err "Missing lightId or color"), calls := [], newState := st }
  else
    let lid := command.lightId.getD ""
    let c := command.color.getD (0, 0, 0)
    let times := jsOrNum command.times 3
    let r := flashLoop bridge lid c times.toNat
    match r.2 with
    | some e =>
        { response := .ok (.err (jsOrStr e "Failed to flash light")),
          calls := r.1, newState := st }
    | none =>
      match bridge.setLight lid (flashOnState c) with
      | .ok _ =>
          { response := .ok .success,
            calls := r.1 ++ [.setLightState lid (flashOnState c)], newState := st }
      | .error e =>
          { response := .ok (.err (jsOrStr e "Failed to flash light")),
            calls := r.1 ++ [.setLightState lid (flashOnState c)], newState := st }

/-- `case 'set_brightness'` (lines 253-269): note the strict
`command.brightness === undefined` test and the 0-100 → 0-254 scaling. -/
def setBrightnessBranch (command : MCPCommand) (bridge : Bridge) (st : ServerState) : HCResult :=
  if strFalsy command.lightId || command.brightness.isNone then
    { response := .ok (.err "Missing lightId or brightness"), calls := [], newState := st }
  else
    let lid := command.lightId.getD ""
    let b := command.brightness.getD 0
    let bri := jsRound ((b : ℚ) / 100 * 254)
    let arg : LightStateArg := { «on» := some true, bri := some bri }
    match bridge.setLight lid arg with
    | .ok _ =>
        { response := .ok .success, calls := [.setLightState lid arg], newState := st }
    | .error e =>
        { response := .ok (.err (jsOrStr e "Failed to set brightness")),
          calls := [.setLightState lid arg], newState := st }

/-- `case 'set_effect'` (lines 271-285). -/
def setEffectBranch (command : MCPCommand) (bridge : Bridge) (st : ServerState) : HCResult :=
  if strFalsy command.lightId || strFalsy command.effectType then
    { response := .ok (.err "Missing lightId or effectType"), calls := [], newState := st }
  else
    let lid := command.lightId.getD ""
    let arg : LightStateArg := { effect := command.effectType }
    match bridge.setLight lid arg with
    | .ok _ =>
        { response := .ok .success, calls := [.setLightState lid arg], newState := st }
    | .error e =>
        { response := .ok (.err (jsOrStr e "Failed to set effect")),
          calls := [.setLightState lid arg], newState := st }

/-- `case 'set_temperature'` (lines 287-304): Kelvin to Mired via
`round(1000000 / temperature)`; the required-field test is the falsy
`!command.temperature`. -/
def setTemperatureBranch (command : MCPCommand) (bridge : Bridge) (st : ServerState) : HCResult :=
  if strFalsy command.lightId || numFalsy command.temperature then
    { response := .ok (.err "Missing lightId or temperature"), calls := [], newState := st }
  else
    let lid := command.lightId.getD ""
    let t := command.temperature.getD 0
    let ct := jsRound (1000000 / (t : ℚ))
    let arg : LightStateArg := { «on» := some true, ct := some ct }
    match bridge.setLight lid arg with
    | .ok _ =>
        { response := .ok .success, calls := [.setLightState lid arg], newState := st }
    | .error e =>
        { response := .ok (.err (jsOrStr e "Failed to set color temperature")),
          calls := [.setLightState lid arg], newState := st }

/-- `case 'activate_scene'` (lines 306-318). -/
def activateSceneBranch (command : MCPCommand) (bridge : Bridge) (st : ServerState) : HCResult :=
  if strFalsy command.scene then
    { response := .ok (.err "Missing scene identifier"), calls := [], newState := st }
  else
    let sc := command.scene.getD ""
    match bridge.activateSceneResult sc with
    | .ok _ =>
        { response := .ok .success, calls := [.activateScene sc], newState := st }
    | .error e =>
        { response := .ok (.err (jsOrStr e "Failed to activate scene")),
          calls := [.activateScene sc], newState := st }

/-- The partial group-state object built at lines 325-331: exactly the present
fields among color / brightness / temperature / effectType, with the same
presence tests as the source (`if (command.color)`,
`command.brightness !== undefined`, `if (command.temperature)`,
`if (command.effectType)`). -/
def groupStatePartial (command : MCPCommand) : GroupStateArg :=
  { rgb := command.color,
    bri := command.brightness.map (fun b => jsRound ((b : ℚ) / 100 * 254)),
    ct :=
      match command.temperature with
      | some t => if t == 0 then none else some (jsRound (1000000 / (t : ℚ)))
      | none => none,
    effect :=
      match command.effectType with
      | some e => if e == "" then none else some e
      | none => none }

/-- The TypeError thrown at line 333.  `const state: any = {}` at line 325
shadows the module-level `state`, so `state.bridge` is `undefined` and the
member access `.groups` throws.  (Actual Node text:
`Cannot read properties of undefined (reading 'groups')`.) -/
def groupStateShadowError : String :=
  "TypeError: Cannot read properties of undefined (reading groups)"

/-- `case 'set_group_state'` (lines 320-340).  The partial state object is
built, but the call `state.bridge.groups.setGroupState(...)` reads `.bridge`
off the freshly built local `state` object (the declaration at line 325
shadows the module-level `state`), which is `undefined`, so a TypeError is
thrown before any adapter call; the branch catch converts it to an error
response. -/
def setGroupStateBranch (command : MCPCommand) (_bridge : Bridge) (st : ServerState) : HCResult :=
  if strFalsy command.group then
    { response := .ok (.err "Missing group identifier"), calls := [], newState := st }
  else
    let _partialState := groupStatePartial command
    { response := .ok (.err (jsOrStr groupStateShadowError "Failed to set group state")),
      calls := [], newState := st }

/-- `case 'disco'` (lines 342-390): registers a detached interval job and
returns success immediately; no adapter call is made before the response. -/
def discoBranch (command : MCPCommand) (_bridge : Bridge) (st : ServerState) : HCResult :=
  if strFalsy command.lightId then
    { response := .ok (.err "Missing lightId"), calls := [], newState := st }
  else
    let duration := jsOrNum command.duration 30
    let speed := jsOrNum command.speed 500
    { response := .ok .success, calls := [], newState := st,
      job := some { lightId := command.lightId.getD "", duration := duration, speed := speed } }

/-- `case 'turn_off'` (lines 392-406). -/
def turnOffBranch (command : MCPCommand) (bridge : Bridge) (st : ServerState) : HCResult :=
  if strFalsy command.lightId then
    { response := .ok (.err "Missing lightId"), calls := [], newState := st }
  else
    let lid := command.lightId.getD ""
    let arg : LightStateArg := { «on» := some false }
    match bridge.setLight lid arg with
    | .ok _ =>
        { response := .ok .success, calls := [.setLightState lid arg], newState := st }
    | .error e =>
        { response := .ok (.err (jsOrStr e "Failed to turn off light")),
          calls := [.setLightState lid arg], newState := st }

/-- `default:` (lines 408-412). -/
def unknownBranch (_command : MCPCommand) (_bridge : Bridge) (st : ServerState) : HCResult :=
  { response := .ok (.err "Unknown command"), calls := [], newState := st }

/-- `handleCommand` (lines 160-414): dispatch on `command.type`. -/
def handleCommand (command : MCPCommand) (bridge : Bridge) (st : ServerState) : HCResult :=
  match command.type with
  | "get_lights" => getLightsBranch command bridge st
  | "get_groups" => getGroupsBranch command bridge st
  | "get_scenes" => getScenesBranch command bridge st
  | "set_color" => setColorBranch command bridge st
  | "flash" => flashBranch command bridge st
  | "set_brightness" => setBrightnessBranch command bridge st
  | "set_effect" => setEffectBranch command bridge st
  | "set_temperature" => setTemperatureBranch command bridge st
  | "activate_scene" => activateSceneBranch command bridge st
  | "set_group_state" => setGroupStateBranch command bridge st
  | "disco" => discoBranch command bridge st
  | "turn_off" => turnOffBranch command bridge st
  | _ => unknownBranch command bridge st

/-- The enumerated command types of the dispatch. -/
def knownTypes : List String :=
  ["get_lights", "get_groups", "get_scenes", "set_color", "flash", "set_brightness",
   "set_effect", "set_temperature", "activate_scene", "set_group_state", "disco", "turn_off"]

/-- An action the server takes on a client socket.  The source never calls
`socket.end` or `socket.destroy`, but the action is modelled so that its
absence is a statement, not a typing accident. -/
inductive SocketAction
  | write (resp : MCPResponse)
  | close
deriving Repr, DecidableEq

/-- `handleMessage` (lines 145-158): JSON-decode the message and run the
command, writing the response; the surrounding try/catch turns a decode
failure or an exception escaping `handleCommand` into one error response
(`error.message || 'Invalid command format'`).  The decode outcome of
`JSON.parse` is passed in as an `Except`. -/
def handleMessage (parsed : Except String MCPCommand) (bridge : Bridge)
    (st : ServerState) : List SocketAction :=
  match parsed with
  | .error e => [.write (.err (jsOrStr e "Invalid command format"))]
  | .ok command =>
    match (handleCommand command bridge st).response with
    | .ok resp => [.write resp]
    | .error e => [.write (.err (jsOrStr e "Invalid command format"))]

/-- The message-extraction loop of the data handler (lines 38-52): repeatedly
find the first newline (`buffer.indexOf('\n')`), take the part before it as
one message (`buffer.slice(0, i)`), and continue past it
(`buffer.slice(i + 1)`); stop when no newline remains.  Returns the extracted
messages in order and the remaining buffer.  The buffer is modelled as a
`List Char`. -/
def extractMessages (buf : List Char) : List (List Char) × List Char :=
  match h : buf.dropWhile (fun c => !(c == '\n')) with
  | [] => ([], buf)
  | _ :: rest =>
    let message := buf.takeWhile (fun c => !(c == '\n'))
    let r := extractMessages rest
    (message :: r.1, r.2)
termination_by buf.length
decreasing_by
  have hs : (buf.dropWhile (fun c => !(c == '\n'))).length ≤ buf.length :=
    (List.dropWhile_sublist _).length_le
  rw [h] at hs
  simp only [List.length_cons] at hs
  omega

/-- The whole data handler (lines 34-52): append the arriving chunk to the
per-connection buffer, then run the extraction loop. -/
def onData (buffer chunk : List Char) : List (List Char) × List Char :=
  extractMessages (buffer ++ chunk)

/-- The fixed disco palette (lines 349-356). -/
def discoColors : List (Int × Int × Int) :=
  [(255, 0, 0), (255, 0, 255), (0, 0, 255), (0, 255, 255), (0, 255, 0), (255, 255, 0)]

/-- The mutable state of a running disco interval: the palette cursor and
whether the interval is still registered. -/
structure DiscoRun where
  colorIndex : Nat
  active : Bool
deriving Repr, DecidableEq

/-- The partial state sent by one disco tick at cursor `i` (lines 365-370). -/
def discoTickArg (i : Nat) : LightStateArg :=
  { «on» := some true, bri := some 254, rgb := some (discoColors.getD i (0, 0, 0)),
    transitiontime := some 0 }

/-- The adapter call issued by one disco tick at cursor `i`. -/
def discoTickCall (lid : String) (i : Nat) : BridgeCall :=
  .setLightState lid (discoTickArg i)

/-- One tick of the disco interval callback (lines 362-382): attempt the
`setLightState` call at the current cursor.  When the call succeeds, advance
the cursor modulo the palette length and clear the interval when
`now - startTime >= duration * 1000`.  When the call throws, the callback's
catch (lines 379-381) only logs: the cursor does not advance, the duration
check never runs, and the interval stays registered. -/
def discoTick (bridge : Bridge) (lid : String) (startTime durationS : Int)
    (s : DiscoRun) (now : Int) : BridgeCall × DiscoRun :=
  (discoTickCall lid s.colorIndex,
   match bridge.setLight lid (discoTickArg s.colorIndex) with
   | .error _ => s
   | .ok _ =>
     { colorIndex := (s.colorIndex + 1) % discoColors.length,
       active := decide (now - startTime < durationS * 1000) })

/-- Run the disco interval over the successive tick instants `ts`: once the
interval has been cleared, no further tick ever runs. -/
def discoRun (bridge : Bridge) (lid : String) (startTime durationS : Int) :
    DiscoRun → List Int → List BridgeCall
  | _, [] => []
  | s, t :: ts =>
    if s.active then
      let r := discoTick bridge lid startTime durationS s t
      r.1 :: discoRun bridge lid startTime durationS r.2 ts
    else []

/-- A concrete always-succeeding bridge used to instantiate theorems. -/
def bridge0 : Bridge :=
  { lightsData := [], groupsData := .ok [], scenesData := .ok [],
    setLight := fun _ _ => .ok (), activateSceneResult := fun _ => .ok () }

/-- A concrete server state used to instantiate theorems. -/
def st0 : ServerState := { lights := [] }

/-! ## Helper lemmas -/

theorem jsOrStr_ne_empty (s d : String) (hd : d ≠ "") : jsOrStr s d ≠ "" := by
  unfold jsOrStr
  split
  · exact hd
  · rename_i h
    simpa using h

theorem handleCommand_type_eq (command : MCPCommand) (bridge : Bridge) (st : ServerState) :
    handleCommand command bridge st =
      (if command.type = "get_lights" then getLightsBranch command bridge st
       else if command.type = "get_groups" then getGroupsBranch command bridge st
       else if command.type = "get_scenes" then getScenesBranch command bridge st
       else if command.type = "set_color" then setColorBranch command bridge st
       else if command.type = "flash" then flashBranch command bridge st
       else if command.type = "set_brightness" then setBrightnessBranch command bridge st
       else if command.type = "set_effect" then setEffectBranch command bridge st
       else if command.type = "set_temperature" then setTemperatureBranch command bridge st
       else if command.type = "activate_scene" then activateSceneBranch command bridge st
       else if command.type = "set_group_state" then setGroupStateBranch command bridge st
       else if command.type = "disco" then discoBranch command bridge st
       else if command.type = "turn_off" then turnOffBranch command bridge st
       else unknownBranch command bridge st) := by
  unfold handleCommand
  split <;> simp_all

theorem getGroupsBranch_newState (command : MCPCommand) (bridge : Bridge) (st : ServerState) :
    (getGroupsBranch command bridge st).newState = st := by
  unfold getGroupsBranch
  split <;> rfl

theorem getScenesBranch_newState (command : MCPCommand) (bridge : Bridge) (st : ServerState) :
    (getScenesBranch command bridge st).newState = st := by
  unfold getScenesBranch
  split <;> rfl

theorem setColorBranch_newState (command : MCPCommand) (bridge : Bridge) (st : ServerState) :
    (setColorBranch command bridge st).newState = st := by
  unfold setColorBranch
  dsimp only
  split
  · rfl
  · split <;> rfl

theorem flashBranch_newState (command : MCPCommand) (bridge : Bridge) (st : ServerState) :
    (flashBranch command bridge st).newState = st := by
  unfold flashBranch
  dsimp only
  split
  · rfl
  · split
    · rfl
    · split <;> rfl

theorem setBrightnessBranch_newState (command : MCPCommand) (bridge : Bridge) (st : ServerState) :
    (setBrightnessBranch command bridge st).newState = st := by
  unfold setBrightnessBranch
  dsimp only
  split
  · rfl
  · split <;> rfl

theorem setEffectBranch_newState (command : MCPCommand) (bridge : Bridge) (st : ServerState) :
    (setEffectBranch command bridge st).newState = st := by
  unfold setEffectBranch
  dsimp only
  split
  · rfl
  · split <;> rfl

theorem setTemperatureBranch_newState (command : MCPCommand) (bridge : Bridge) (st : ServerState) :
    (setTemperatureBranch command bridge st).newState = st := by
  unfold setTemperatureBranch
  dsimp only
  split
  · rfl
  · split <;> rfl

theorem activateSceneBranch_newState (command : MCPCommand) (bridge : Bridge) (st : ServerState) :
    (activateSceneBranch command bridge st).newState = st := by
  unfold activateSceneBranch
  dsimp only
  split
  · rfl
  · split <;> rfl

theorem setGroupStateBranch_newState (command : MCPCommand) (bridge : Bridge) (st : ServerState) :
    (setGroupStateBranch command bridge st).newState = st := by
  unfold setGroupStateBranch
  split <;> rfl

theorem discoBranch_newState (command : MCPCommand) (bridge : Bridge) (st : ServerState) :
    (discoBranch command bridge st).newState = st := by
  unfold discoBranch
  split <;> rfl

theorem turnOffBranch_newState (command : MCPCommand) (bridge : Bridge) (st : ServerState) :
    (turnOffBranch command bridge st).newState = st := by
  unfold turnOffBranch
  dsimp only
  split
  · rfl
  · split <;> rfl

theorem handleCommand_newState (command : MCPCommand) (bridge : Bridge) (st : ServerState) :
    (handleCommand command bridge st).newState = st := by
  unfold handleCommand
  split <;>
    first
      | rfl
      | exact getGroupsBranch_newState command bridge st
      | exact getScenesBranch_newState command bridge st
      | exact setColorBranch_newState command bridge st
      | exact flashBranch_newState command bridge st
      | exact setBrightnessBranch_newState command bridge st
      | exact setEffectBranch_newState command bridge st
      | exact setTemperatureBranch_newState command bridge st
      | exact activateSceneBranch_newState command bridge st
      | exact setGroupStateBranch_newState command bridge st
      | exact discoBranch_newState command bridge st
      | exact turnOffBranch_newState command bridge st

/-- The module state after interpreting a sequence of commands in order. -/
def runCommands (bridge : Bridge) (cmds : List MCPCommand) (st : ServerState) : ServerState :=
  cmds.foldl (fun s c => (handleCommand c bridge s).newState) st

theorem runCommands_eq (bridge : Bridge) (cmds : List MCPCommand) (st : ServerState) :
    runCommands bridge cmds st = st := by
  induction cmds generalizing st with
  | nil => rfl
  | cons c cs ih =>
      show runCommands bridge cs (handleCommand c bridge st).newState = st
      rw [handleCommand_newState, ih]

/-- **C3**: after startup, `get_lights` returns exactly the light list fetched
once during bridge initialization, projected to id/name/state, and no
sequence of intervening commands (in particular no `set_color`) modifies the
stored list. -/
theorem getLights_returns_startup_snapshot (bridge : Bridge) (cmds : List MCPCommand) :
    (handleCommand { type := "get_lights" } bridge
        (runCommands bridge cmds (initializeHueBridge bridge))).response =
      .ok (.lightsList (bridge.lightsData.map projLight)) ∧
    (runCommands bridge cmds (initializeHueBridge bridge)).lights = bridge.lightsData := by
  rw [runCommands_eq]
  exact ⟨rfl, rfl⟩

/-- A concrete `set_group_state` command: group "1", brightness 50. -/
def setGroupStateCmd : MCPCommand :=
  { type := "set_group_state", group := some "1", brightness := some 50 }

/-- **C1** (code bug): the `set_group_state` branch does build the partial
state object (here exactly `bri = round(50/100*254) = 127`), but the local
`const state: any = {}` shadows the module-level `state`, so
`state.bridge.groups.setGroupState(...)` throws a TypeError; for every bridge
and every module state the command makes no adapter call and answers with an
error response, never success. -/
theorem setGroupState_shadowed_state_bug (bridge : Bridge) (st : ServerState) :
    (handleCommand setGroupStateCmd bridge st).calls = [] ∧
    (handleCommand setGroupStateCmd bridge st).response = .ok (.err groupStateShadowError) ∧
    groupStateShadowError ≠ "" ∧
    groupStatePartial setGroupStateCmd =
      { rgb := none, bri := some 127, ct := none, effect := none } := by
  refine ⟨rfl, rfl, by decide, ?_⟩
  have h127 : jsRound ((50 : ℚ) / 100 * 254) = 127 := by
    unfold jsRound
    norm_num
  simp [groupStatePartial, setGroupStateCmd, h127]

/-- A light present in the startup cache. -/
def lampLight : LightObj := { id := "1", name := "Lamp", state := "on" }

/-- A different light, the one the bridge would currently report. -/
def deskLight : LightObj := { id := "2", name := "Desk", state := "off" }

/-- **C2 counterexample**: `get_lights` does not re-fetch from the Bridge
Client Adapter.  With the cached module state holding `lampLight` while the
bridge currently reports `deskLight`, the query makes zero adapter calls and
returns the cached light, which differs from the bridge's current data. -/
theorem getLights_serves_cached_copy :
    (handleCommand { type := "get_lights" } { bridge0 with lightsData := [deskLight] }
        { lights := [lampLight] }).calls = [] ∧
    (handleCommand { type := "get_lights" } { bridge0 with lightsData := [deskLight] }
        { lights := [lampLight] }).response = .ok (.lightsList [projLight lampLight]) ∧
    projLight lampLight ≠ projLight deskLight := by
  refine ⟨rfl, rfl, by decide⟩

theorem getGroupsBranch_fetch (command : MCPCommand) (bridge : Bridge) (st : ServerState)
    (gs : List GroupObj) (hg : bridge.groupsData = .ok gs) :
    getGroupsBranch command bridge st =
      { response := .ok (.groupsList (gs.map projGroup)), calls := [.getAllGroups],
        newState := st } := by
  unfold getGroupsBranch
  rw [hg]

theorem getScenesBranch_fetch (command : MCPCommand) (bridge : Bridge) (st : ServerState)
    (ss : List SceneObj) (hs : bridge.scenesData = .ok ss) :
    getScenesBranch command bridge st =
      { response := .ok (.scenesList (ss.map projScene)), calls := [.getAllScenes],
        newState := st } := by
  unfold getScenesBranch
  rw [hs]

/-- **C2 as amended**: `get_groups` and `get_scenes` re-fetch from the Bridge
Client Adapter on every query (exactly one fetch call each, and the response
projects the freshly fetched data); `get_lights`, by contrast, makes no
adapter call and serves the light list cached in the module state. -/
theorem query_fetch_behavior (bridge : Bridge) (st : ServerState)
    (gs : List GroupObj) (ss : List SceneObj)
    (hg : bridge.groupsData = .ok gs) (hs : bridge.scenesData = .ok ss) :
    ((handleCommand { type := "get_groups" } bridge st).calls = [.getAllGroups] ∧
      (handleCommand { type := "get_groups" } bridge st).response =
        .ok (.groupsList (gs.map projGroup))) ∧
    ((handleCommand { type := "get_scenes" } bridge st).calls = [.getAllScenes] ∧
      (handleCommand { type := "get_scenes" } bridge st).response =
        .ok (.scenesList (ss.map projScene))) ∧
    ((handleCommand { type := "get_lights" } bridge st).calls = [] ∧
      (handleCommand { type := "get_lights" } bridge st).response =
        .ok (.lightsList (st.lights.map projLight))) := by
  have e1 : handleCommand { type := "get_groups" } bridge st =
      getGroupsBranch { type := "get_groups" } bridge st := rfl
  have e2 : handleCommand { type := "get_scenes" } bridge st =
      getScenesBranch { type := "get_scenes" } bridge st := rfl
  rw [e1, e2, getGroupsBranch_fetch _ bridge st gs hg, getScenesBranch_fetch _ bridge st ss hs]
  exact ⟨⟨rfl, rfl⟩, ⟨rfl, rfl⟩, rfl, rfl⟩

/-- Witness for `query_fetch_behavior` at the concrete always-ok bridge. -/
theorem query_fetch_behavior_witness :
    ((handleCommand { type := "get_groups" } bridge0 st0).calls = [.getAllGroups] ∧
      (handleCommand { type := "get_groups" } bridge0 st0).response =
        .ok (.groupsList (List.map projGroup []))) ∧
    ((handleCommand { type := "get_scenes" } bridge0 st0).calls = [.getAllScenes] ∧
      (handleCommand { type := "get_scenes" } bridge0 st0).response =
        .ok (.scenesList (List.map projScene []))) ∧
    ((handleCommand { type := "get_lights" } bridge0 st0).calls = [] ∧
      (handleCommand { type := "get_lights" } bridge0 st0).response =
        .ok (.lightsList (List.map projLight st0.lights))) :=
  query_fetch_behavior bridge0 st0 [] [] rfl rfl


/-- The required-field condition for each recognized command type: holds when
a field the spec lists as required for that type is absent from the command.
(Formalized from the spec's words; the code's own checks are the falsy tests
inside each branch, which are implied by absence.) -/
def requiredFieldMissing (command : MCPCommand) : Prop :=
  match command.type with
  | "set_color" => command.lightId = none ∨ command.color = none
  | "flash" => command.lightId = none ∨ command.color = none
  | "set_brightness" => command.lightId = none ∨ command.brightness = none
  | "set_effect" => command.lightId = none ∨ command.effectType = none
  | "set_temperature" => command.lightId = none ∨ command.temperature = none
  | "activate_scene" => command.scene = none
  | "set_group_state" => command.group = none
  | "disco" => command.lightId = none
  | "turn_off" => command.lightId = none
  | _ => False

theorem setColorBranch_missing (command : MCPCommand) (bridge : Bridge) (st : ServerState)
    (h : command.lightId = none ∨ command.color = none) :
    setColorBranch command bridge st =
      { response := .ok (.err "Missing lightId or color"), calls := [], newState := st } := by
  unfold setColorBranch
  rcases h with h | h <;> simp [h, strFalsy]

theorem flashBranch_missing (command : MCPCommand) (bridge : Bridge) (st : ServerState)
    (h : command.lightId = none ∨ command.color = none) :
    flashBranch command bridge st =
      { response := .ok (.err "Missing lightId or color"), calls := [], newState := st } := by
  unfold flashBranch
  rcases h with h | h <;> simp [h, strFalsy]

theorem setBrightnessBranch_missing (command : MCPCommand) (bridge : Bridge) (st : ServerState)
    (h : command.lightId = none ∨ command.brightness = none) :
    setBrightnessBranch command bridge st =
      { response := .ok (.err "Missing lightId or brightness"), calls := [], newState := st } := by
  unfold setBrightnessBranch
  rcases h with h | h <;> simp [h, strFalsy]

theorem setEffectBranch_missing (command : MCPCommand) (bridge : Bridge) (st : ServerState)
    (h : command.lightId = none ∨ command.effectType = none) :
    setEffectBranch command bridge st =
      { response := .ok (.err "Missing lightId or effectType"), calls := [], newState := st } := by
  unfold setEffectBranch
  rcases h with h | h <;> simp [h, strFalsy]

theorem setTemperatureBranch_missing (command : MCPCommand) (bridge : Bridge) (st : ServerState)
    (h : command.lightId = none ∨ command.temperature = none) :
    setTemperatureBranch command bridge st =
      { response := .ok (.err "Missing lightId or temperature"), calls := [], newState := st } := by
  unfold setTemperatureBranch
  rcases h with h | h <;> simp [h, strFalsy, numFalsy]

theorem activateSceneBranch_missing (command : MCPCommand) (bridge : Bridge) (st : ServerState)
    (h : command.scene = none) :
    activateSceneBranch command bridge st =
      { response := .ok (.err "Missing scene identifier"), calls := [], newState := st } := by
  unfold activateSceneBranch
  simp [h, strFalsy]

theorem setGroupStateBranch_missing (command : MCPCommand) (bridge : Bridge) (st : ServerState)
    (h : command.group = none) :
    setGroupStateBranch command bridge st =
      { response := .ok (.err "Missing group identifier"), calls := [], newState := st } := by
  unfold setGroupStateBranch
  simp [h, strFalsy]

theorem discoBranch_missing (command : MCPCommand) (bridge : Bridge) (st : ServerState)
    (h : command.lightId = none) :
    discoBranch command bridge st =
      { response := .ok (.err "Missing lightId"), calls := [], newState := st } := by
  unfold discoBranch
  simp [h, strFalsy]

theorem turnOffBranch_missing (command : MCPCommand) (bridge : Bridge) (st : ServerState)
    (h : command.lightId = none) :
    turnOffBranch command bridge st =
      { response := .ok (.err "Missing lightId"), calls := [], newState := st } := by
  unfold turnOffBranch
  simp [h, strFalsy]

/-- **C6**: a recognized command lacking a required field gets a `type:error`
response with a non-empty error string and causes no Bridge Client Adapter
call; a command whose type is outside the enumerated set gets exactly the
error string "Unknown command" and likewise causes no adapter call. -/
theorem validation_errors (command : MCPCommand) (bridge : Bridge) (st : ServerState) :
    (requiredFieldMissing command →
      ∃ m, (handleCommand command bridge st).response = .ok (.err m) ∧ m ≠ "" ∧
        (handleCommand command bridge st).calls = []) ∧
    (command.type ∉ knownTypes →
      (handleCommand command bridge st).response = .ok (.err "Unknown command") ∧
      (handleCommand command bridge st).calls = []) := by
  constructor
  · intro h
    unfold requiredFieldMissing at h
    split at h
    all_goals rename_i heq
    · -- set_color
      have e : handleCommand command bridge st = setColorBranch command bridge st := by
        unfold handleCommand
        rw [heq]
        rfl
      rw [e, setColorBranch_missing command bridge st h]
      exact ⟨"Missing lightId or color", rfl, by decide, rfl⟩
    · -- flash
      have e : handleCommand command bridge st = flashBranch command bridge st := by
        unfold handleCommand
        rw [heq]
        rfl
      rw [e, flashBranch_missing command bridge st h]
      exact ⟨"Missing lightId or color", rfl, by decide, rfl⟩
    · -- set_brightness
      have e : handleCommand command bridge st = setBrightnessBranch command bridge st := by
        unfold handleCommand
        rw [heq]
        rfl
      rw [e, setBrightnessBranch_missing command bridge st h]
      exact ⟨"Missing lightId or brightness", rfl, by decide, rfl⟩
    · -- set_effect
      have e : handleCommand command bridge st = setEffectBranch command bridge st := by
        unfold handleCommand
        rw [heq]
        rfl
      rw [e, setEffectBranch_missing command bridge st h]
      exact ⟨"Missing lightId or effectType", rfl, by decide, rfl⟩
    · -- set_temperature
      have e : handleCommand command bridge st = setTemperatureBranch command bridge st := by
        unfold handleCommand
        rw [heq]
        rfl
      rw [e, setTemperatureBranch_missing command bridge st h]
      exact ⟨"Missing lightId or temperature", rfl, by decide, rfl⟩
    · -- activate_scene
      have e : handleCommand command bridge st = activateSceneBranch command bridge st := by
        unfold handleCommand
        rw [heq]
        rfl
      rw [e, activateSceneBranch_missing command bridge st h]
      exact ⟨"Missing scene identifier", rfl, by decide, rfl⟩
    · -- set_group_state
      have e : handleCommand command bridge st = setGroupStateBranch command bridge st := by
        unfold handleCommand
        rw [heq]
        rfl
      rw [e, setGroupStateBranch_missing command bridge st h]
      exact ⟨"Missing group identifier", rfl, by decide, rfl⟩
    · -- disco
      have e : handleCommand command bridge st = discoBranch command bridge st := by
        unfold handleCommand
        rw [heq]
        rfl
      rw [e, discoBranch_missing command bridge st h]
      exact ⟨"Missing lightId", rfl, by decide, rfl⟩
    · -- turn_off
      have e : handleCommand command bridge st = turnOffBranch command bridge st := by
        unfold handleCommand
        rw [heq]
        rfl
      rw [e, turnOffBranch_missing command bridge st h]
      exact ⟨"Missing lightId", rfl, by decide, rfl⟩
    · exact h.elim
  · intro h
    unfold handleCommand
    split
    all_goals try (rename_i heq; exact absurd (by rw [heq]; decide : command.type ∈ knownTypes) h)
    exact ⟨rfl, rfl⟩

/-- Witness for `validation_errors`: a `set_color` command with no fields, and
a command of unknown type. -/
theorem validation_errors_witness :
    (∃ m, (handleCommand { type := "set_color" } bridge0 st0).response = .ok (.err m) ∧
      m ≠ "" ∧ (handleCommand { type := "set_color" } bridge0 st0).calls = []) ∧
    ((handleCommand { type := "bogus" } bridge0 st0).response = .ok (.err "Unknown command") ∧
      (handleCommand { type := "bogus" } bridge0 st0).calls = []) :=
  ⟨(validation_errors { type := "set_color" } bridge0 st0).1 (Or.inl rfl),
   (validation_errors { type := "bogus" } bridge0 st0).2 (by decide)⟩

theorem jsRound_nonneg (q : ℚ) (h : 0 ≤ q) : 0 ≤ jsRound q := by
  unfold jsRound
  exact Int.le_floor.mpr (by push_cast; linarith)

theorem jsRound_le (q : ℚ) (n : ℤ) (h : q ≤ n) : jsRound q ≤ n := by
  unfold jsRound
  have hlt : ⌊q + 1 / 2⌋ < n + 1 := Int.floor_lt.mpr (by push_cast; linarith)
  omega

theorem setBrightnessBranch_spec (command : MCPCommand) (bridge : Bridge) (st : ServerState)
    (lid : String) (b : Int) (hl : command.lightId = some lid) (hne : lid ≠ "")
    (hb : command.brightness = some b)
    (hok : bridge.setLight lid
        { «on» := some true, bri := some (jsRound ((b : ℚ) / 100 * 254)) } = .ok ()) :
    setBrightnessBranch command bridge st =
      { response := .ok .success,
        calls := [.setLightState lid
          { «on» := some true, bri := some (jsRound ((b : ℚ) / 100 * 254)) }],
        newState := st } := by
  unfold setBrightnessBranch
  rw [hl, hb]
  have hlid : strFalsy (some lid) = false := by simp [strFalsy, hne]
  simp only [hlid, Option.isNone_some, Bool.or_false, Bool.false_eq_true, if_false,
    Option.getD_some]
  rw [hok]

/-- **C4**: a `set_brightness` command with a light id and integer brightness
b in [0,100] produces exactly one `setLightState` call carrying `on: true`
and `bri = round(b/100*254)`, a value in [0,254], and a success response. -/
theorem setBrightness_scaling (command : MCPCommand) (bridge : Bridge) (st : ServerState)
    (lid : String) (b : Int) (ht : command.type = "set_brightness")
    (hl : command.lightId = some lid) (hne : lid ≠ "") (hb : command.brightness = some b)
    (h0 : 0 ≤ b) (h100 : b ≤ 100)
    (hok : bridge.setLight lid
        { «on» := some true, bri := some (jsRound ((b : ℚ) / 100 * 254)) } = .ok ()) :
    (handleCommand command bridge st).calls =
      [.setLightState lid { «on» := some true, bri := some (jsRound ((b : ℚ) / 100 * 254)) }] ∧
    0 ≤ jsRound ((b : ℚ) / 100 * 254) ∧ jsRound ((b : ℚ) / 100 * 254) ≤ 254 ∧
    (handleCommand command bridge st).response = .ok .success := by
  have e : handleCommand command bridge st = setBrightnessBranch command bridge st := by
    unfold handleCommand
    rw [ht]
    rfl
  rw [e, setBrightnessBranch_spec command bridge st lid b hl hne hb hok]
  have hb0 : (0 : ℚ) ≤ (b : ℚ) := by exact_mod_cast h0
  have hb100 : (b : ℚ) ≤ 100 := by exact_mod_cast h100
  refine ⟨rfl, ?_, ?_, rfl⟩
  · exact jsRound_nonneg _ (by positivity)
  · apply jsRound_le
    push_cast
    rw [div_mul_eq_mul_div, div_le_iff (by norm_num : (0 : ℚ) < 100)]
    linarith

/-- A concrete `set_brightness` command: light "1", brightness 50. -/
def setBrightnessCmd : MCPCommand :=
  { type := "set_brightness", lightId := some "1", brightness := some 50 }

/-- Witness for `setBrightness_scaling` at brightness 50. -/
theorem setBrightness_scaling_witness :
    (handleCommand setBrightnessCmd bridge0 st0).calls =
      [.setLightState "1"
        { «on» := some true, bri := some (jsRound (((50 : ℤ) : ℚ) / 100 * 254)) }] ∧
    0 ≤ jsRound (((50 : ℤ) : ℚ) / 100 * 254) ∧ jsRound (((50 : ℤ) : ℚ) / 100 * 254) ≤ 254 ∧
    (handleCommand setBrightnessCmd bridge0 st0).response = .ok .success :=
  setBrightness_scaling setBrightnessCmd bridge0 st0 "1" 50 rfl rfl (by decide) rfl
    (by decide) (by decide) rfl

/-- The call issued at position `i` of the flash sequence: even positions are
the on-call (on, bri 254, the requested rgb), odd positions the off-call. -/
def flashPat (lid : String) (c : Int × Int × Int) (i : Nat) : BridgeCall :=
  .setLightState lid (if i % 2 = 0 then flashOnState c else flashOffState)

theorem flashLoop_ok (bridge : Bridge) (lid : String) (c : Int × Int × Int)
    (hok : ∀ a, bridge.setLight lid a = .ok ()) (m : Nat) :
    flashLoop bridge lid c m = ((List.range (2 * m)).map (flashPat lid c), none) := by
  induction m with
  | zero => rfl
  | succ k ih =>
      unfold flashLoop
      rw [hok (flashOnState c), hok flashOffState]
      dsimp only
      rw [ih]
      rw [Prod.mk.injEq]
      refine ⟨?_, rfl⟩
      rw [show 2 * (k + 1) = 2 * k + 1 + 1 by ring, List.range_succ_eq_map,
        List.range_succ_eq_map]
      simp only [List.map_cons, List.map_map]
      congr 1
      congr 1
      refine .symm (List.map_congr_left fun i _ => ?_)
      unfold flashPat
      have hmod : (i + 1 + 1) % 2 = i % 2 := by omega
      simp [Function.comp, hmod]

theorem flashBranch_calls (command : MCPCommand) (bridge : Bridge) (st : ServerState)
    (lid : String) (c : Int × Int × Int)
    (hl : command.lightId = some lid) (hne : lid ≠ "") (hc : command.color = some c)
    (hok : ∀ a, bridge.setLight lid a = .ok ()) :
    flashBranch command bridge st =
      { response := .ok .success,
        calls := (List.range (2 * (jsOrNum command.times 3).toNat + 1)).map (flashPat lid c),
        newState := st } := by
  unfold flashBranch
  rw [hl, hc]
  have hlid : strFalsy (some lid) = false := by simp [strFalsy, hne]
  simp only [hlid, Option.isNone_some, Bool.or_false, Bool.false_eq_true, if_false,
    Option.getD_some]
  rw [flashLoop_ok bridge lid c hok]
  dsimp only
  rw [hok (flashOnState c)]
  rw [List.range_succ, List.map_append]
  congr 1
  unfold flashPat
  simp [Nat.mul_mod_right]

/-- **C5**: a `flash` command with light id, color and a positive `times = n`
produces exactly `2*n+1` setLightState calls, alternating on/off starting and
ending with the on-call (on, bri 254, the requested rgb; off-calls carry only
on:false), all recorded before the success response. -/
theorem flash_call_sequence (command : MCPCommand) (bridge : Bridge) (st : ServerState)
    (lid : String) (c : Int × Int × Int) (n : Int)
    (ht : command.type = "flash") (hl : command.lightId = some lid) (hne : lid ≠ "")
    (hc : command.color = some c) (htimes : command.times = some n) (hpos : 0 < n)
    (hok : ∀ a, bridge.setLight lid a = .ok ()) :
    (handleCommand command bridge st).calls =
      (List.range (2 * n.toNat + 1)).map (flashPat lid c) ∧
    (handleCommand command bridge st).calls.length = 2 * n.toNat + 1 ∧
    (handleCommand command bridge st).response = .ok .success := by
  have e : handleCommand command bridge st = flashBranch command bridge st := by
    unfold handleCommand
    rw [ht]
    rfl
  have hjs : jsOrNum command.times 3 = n := by
    rw [htimes]
    simp [jsOrNum, hpos.ne']
  rw [e, flashBranch_calls command bridge st lid c hl hne hc hok, hjs]
  refine ⟨rfl, by simp, rfl⟩

/-- A concrete `flash` command: light "2", green, times 2. -/
def flashCmd : MCPCommand :=
  { type := "flash", lightId := some "2", color := some (0, 255, 0), times := some 2 }

/-- Witness for `flash_call_sequence` at times = 2: five calls
on, off, on, off, on. -/
theorem flash_call_sequence_witness :
    (handleCommand flashCmd bridge0 st0).calls =
      (List.range (2 * (2 : ℤ).toNat + 1)).map (flashPat "2" (0, 255, 0)) ∧
    (handleCommand flashCmd bridge0 st0).calls.length = 2 * (2 : ℤ).toNat + 1 ∧
    (handleCommand flashCmd bridge0 st0).response = .ok .success :=
  flash_call_sequence flashCmd bridge0 st0 "2" (0, 255, 0) 2 rfl rfl (by decide) rfl rfl
    (by decide) (fun _ => rfl)

theorem discoBranch_spec (command : MCPCommand) (bridge : Bridge) (st : ServerState)
    (lid : String) (hl : command.lightId = some lid) (hne : lid ≠ "") :
    discoBranch command bridge st =
      { response := .ok .success, calls := [], newState := st,
        job := some { lightId := lid, duration := jsOrNum command.duration 30,
                      speed := jsOrNum command.speed 500 } } := by
  unfold discoBranch
  rw [hl]
  have hlid : strFalsy (some lid) = false := by simp [strFalsy, hne]
  simp only [hlid, Bool.false_eq_true, if_false, Option.getD_some]

/-- **C10**: the `||`-based defaulting treats an explicit 0 like an absent
field: a `flash` command with `times = 0` performs the default 3 cycles
(7 setLightState calls, ending in success), and a `disco` command with
`duration = 0` and `speed = 0` starts its job with the defaults 30 s and
500 ms. -/
theorem falsy_zero_defaults (bridge : Bridge) (st : ServerState) :
    (∀ command lid c, command.type = "flash" → command.lightId = some lid → lid ≠ "" →
      command.color = some c → command.times = some 0 →
      (∀ a, bridge.setLight lid a = .ok ()) →
      (handleCommand command bridge st).calls.length = 7 ∧
      (handleCommand command bridge st).response = .ok .success) ∧
    (∀ command lid, command.type = "disco" → command.lightId = some lid → lid ≠ "" →
      command.duration = some 0 → command.speed = some 0 →
      (handleCommand command bridge st).job =
        some { lightId := lid, duration := 30, speed := 500 } ∧
      (handleCommand command bridge st).response = .ok .success) := by
  constructor
  · intro command lid c ht hl hne hc htimes hok
    have e : handleCommand command bridge st = flashBranch command bridge st := by
      unfold handleCommand
      rw [ht]
      rfl
    have hjs : jsOrNum command.times 3 = 3 := by rw [htimes]; rfl
    rw [e, flashBranch_calls command bridge st lid c hl hne hc hok, hjs]
    exact ⟨by simp, rfl⟩
  · intro command lid ht hl hne hdur hspeed
    have e : handleCommand command bridge st = discoBranch command bridge st := by
      unfold handleCommand
      rw [ht]
      rfl
    have hd : jsOrNum command.duration 30 = 30 := by rw [hdur]; rfl
    have hs : jsOrNum command.speed 500 = 500 := by rw [hspeed]; rfl
    rw [e, discoBranch_spec command bridge st lid hl hne, hd, hs]
    exact ⟨rfl, rfl⟩

/-- A `flash` command with an explicit `times = 0`. -/
def flashZeroCmd : MCPCommand :=
  { type := "flash", lightId := some "1", color := some (255, 0, 0), times := some 0 }

/-- A `disco` command with explicit `duration = 0` and `speed = 0`. -/
def discoZeroCmd : MCPCommand :=
  { type := "disco", lightId := some "3", duration := some 0, speed := some 0 }

/-- Witness for `falsy_zero_defaults` at concrete zero-valued commands. -/
theorem falsy_zero_defaults_witness :
    ((handleCommand flashZeroCmd bridge0 st0).calls.length = 7 ∧
      (handleCommand flashZeroCmd bridge0 st0).response = .ok .success) ∧
    ((handleCommand discoZeroCmd bridge0 st0).job =
        some { lightId := "3", duration := 30, speed := 500 } ∧
      (handleCommand discoZeroCmd bridge0 st0).response = .ok .success) :=
  ⟨(falsy_zero_defaults bridge0 st0).1 flashZeroCmd "1" (255, 0, 0) rfl rfl (by decide) rfl rfl
      (fun _ => rfl),
   (falsy_zero_defaults bridge0 st0).2 discoZeroCmd "3" rfl rfl (by decide) rfl rfl⟩

theorem discoTick_ok (bridge : Bridge) (lid : String) (startTime durationS : Int)
    (s : DiscoRun) (now : Int)
    (hok : bridge.setLight lid (discoTickArg s.colorIndex) = .ok ()) :
    discoTick bridge lid startTime durationS s now =
      (discoTickCall lid s.colorIndex,
       { colorIndex := (s.colorIndex + 1) % discoColors.length,
         active := decide (now - startTime < durationS * 1000) }) := by
  unfold discoTick
  rw [hok]

theorem discoTick_error (bridge : Bridge) (lid : String) (startTime durationS : Int)
    (s : DiscoRun) (now : Int) (e : String)
    (herr : bridge.setLight lid (discoTickArg s.colorIndex) = .error e) :
    discoTick bridge lid startTime durationS s now = (discoTickCall lid s.colorIndex, s) := by
  unfold discoTick
  rw [herr]

theorem discoRun_inactive (bridge : Bridge) (lid : String) (startTime durationS : Int)
    (s : DiscoRun) (ts : List Int) (h : s.active = false) :
    discoRun bridge lid startTime durationS s ts = [] := by
  cases ts with
  | nil => rfl
  | cons t ts => simp [discoRun, h]

theorem discoRun_stops (bridge : Bridge) (lid : String) (startTime durationS : Int) (i : Nat)
    (ts1 : List Int) (t : Int) (ts2 : List Int)
    (hok : ∀ a, bridge.setLight lid a = .ok ())
    (h1 : ∀ u ∈ ts1, u - startTime < durationS * 1000)
    (h2 : durationS * 1000 ≤ t - startTime) :
    discoRun bridge lid startTime durationS { colorIndex := i % 6, active := true }
        (ts1 ++ t :: ts2) =
      (List.range (ts1.length + 1)).map (fun k => discoTickCall lid ((i + k) % 6)) := by
  induction ts1 generalizing i with
  | nil =>
      have hstop : decide (t - startTime < durationS * 1000) = false := by
        simp [not_lt.mpr h2]
      simp only [List.nil_append, discoRun, if_true]
      rw [discoTick_ok bridge lid startTime durationS _ t (hok _)]
      dsimp only
      rw [hstop]
      rw [discoRun_inactive bridge lid startTime durationS _ ts2 rfl]
      simp [show List.range 1 = [0] from rfl]
  | cons u us ih =>
      have hu : decide (u - startTime < durationS * 1000) = true := by
        simp [h1 u (by simp)]
      have hrest : ∀ v ∈ us, v - startTime < durationS * 1000 := fun v hv => h1 v (by simp [hv])
      simp only [List.cons_append, discoRun, if_true]
      rw [discoTick_ok bridge lid startTime durationS _ u (hok _)]
      dsimp only
      rw [hu]
      have hidx : (i % 6 + 1) % 6 = (i + 1) % 6 := by omega
      have hlen : discoColors.length = 6 := rfl
      rw [hlen, hidx]
      have hih := ih (i + 1) hrest
      rw [show us.append (t :: ts2) = us ++ t :: ts2 from rfl, hih]
      rw [List.length_cons]
      conv_rhs => rw [List.range_succ_eq_map]
      rw [List.map_cons, List.map_map]
      congr 1
      apply List.map_congr_left
      intro a ha
      simp only [Function.comp_apply]
      congr 1
      omega

/-- **C9**: a running disco job, started at cursor 0, against a bridge whose
`setLightState` calls succeed (the hypothesis is explicit because on a
throwing call the callback's catch only logs: the cursor does not advance
and the interval is never cleared — see `discoTick` / `discoTick_error`):
each tick issues exactly one `setLightState` call with on:true, bri 254,
transitiontime 0 and the palette color at the current cursor
(`discoTickCall`), then advances the cursor by one modulo the 6-color
palette, then compares elapsed time against the duration; the first tick at
which elapsed ≥ duration*1000 clears the interval, so the ticks of `ts1`
(all before the deadline) plus that final tick each produce one call with
palette index k % 6, and the instants in `ts2` after the clearing produce
no call at all. -/
theorem disco_tick_behavior (bridge : Bridge) (lid : String) (startTime durationS : Int)
    (ts1 : List Int) (t : Int) (ts2 : List Int)
    (hok : ∀ a, bridge.setLight lid a = .ok ())
    (h1 : ∀ u ∈ ts1, u - startTime < durationS * 1000)
    (h2 : durationS * 1000 ≤ t - startTime) :
    discoRun bridge lid startTime durationS { colorIndex := 0, active := true }
        (ts1 ++ t :: ts2) =
      (List.range (ts1.length + 1)).map (fun k => discoTickCall lid (k % 6)) := by
  have h := discoRun_stops bridge lid startTime durationS 0 ts1 t ts2 hok h1 h2
  simpa using h

/-- Witness for `disco_tick_behavior`: an always-succeeding bridge, duration
1 s, ticks at 0 and 500 ms before the deadline, the tick at 1000 ms clears
the interval, and the tick instant at 1500 ms produces nothing: exactly
three calls, palette indices 0, 1, 2. -/
theorem disco_tick_behavior_witness :
    discoRun bridge0 "3" 0 1 { colorIndex := 0, active := true } ([0, 500] ++ 1000 :: [1500]) =
      (List.range ([0, 500].length + 1)).map (fun k => discoTickCall "3" (k % 6)) :=
  disco_tick_behavior bridge0 "3" 0 1 [0, 500] 1000 [1500] (fun _ => rfl) (by decide) (by decide)

theorem handleMessage_writes_one (parsed : Except String MCPCommand) (bridge : Bridge)
    (st : ServerState) :
    (handleMessage parsed bridge st).length = 1 ∧
    SocketAction.close ∉ handleMessage parsed bridge st := by
  unfold handleMessage
  split
  · simp
  · split <;> simp

/-- **C7**: for every extracted message the handler writes back exactly one
response and never emits a close action; when JSON decoding fails, or an
exception escapes command handling, that one response is of type error and
carries a non-empty error string (`error.message || 'Invalid command
format'`). -/
theorem handleMessage_error_contract (parsed : Except String MCPCommand)
    (bridge : Bridge) (st : ServerState)
    (hfail : (∃ e, parsed = .error e) ∨
      ∃ command e, parsed = .ok command ∧
        (handleCommand command bridge st).response = .error e) :
    (∃ m, handleMessage parsed bridge st = [.write (.err m)] ∧ m ≠ "") ∧
    (handleMessage parsed bridge st).length = 1 ∧
    SocketAction.close ∉ handleMessage parsed bridge st := by
  refine ⟨?_, handleMessage_writes_one parsed bridge st⟩
  rcases hfail with ⟨e, he⟩ | ⟨command, e, hc, hr⟩
  · subst he
    exact ⟨jsOrStr e "Invalid command format", rfl, jsOrStr_ne_empty _ _ (by decide)⟩
  · subst hc
    unfold handleMessage
    dsimp only
    rw [hr]
    exact ⟨jsOrStr e "Invalid command format", rfl, jsOrStr_ne_empty _ _ (by decide)⟩

/-- Witness for `handleMessage_error_contract`: a malformed JSON line whose
decode failure carries the runtime's message. -/
theorem handleMessage_error_contract_witness :
    (∃ m, handleMessage (.error "Unexpected token x in JSON") bridge0 st0 =
      [.write (.err m)] ∧ m ≠ "") ∧
    (handleMessage (.error "Unexpected token x in JSON") bridge0 st0).length = 1 ∧
    SocketAction.close ∉ handleMessage (.error "Unexpected token x in JSON") bridge0 st0 :=
  handleMessage_error_contract (.error "Unexpected token x in JSON") bridge0 st0
    (Or.inl ⟨"Unexpected token x in JSON", rfl⟩)

theorem dropWhile_head_eq_false {α : Type} (p : α → Bool) :
    ∀ (l : List α) (x : α) (rest : List α), l.dropWhile p = x :: rest → p x = false := by
  intro l
  induction l with
  | nil =>
      intro x rest h
      cases h
  | cons c cs ih =>
      intro x rest h
      rw [List.dropWhile_cons] at h
      by_cases hc : p c = true
      · rw [if_pos hc] at h
        exact ih x rest h
      · rw [if_neg hc] at h
        cases h
        simpa using hc

theorem extractMessages_nil : extractMessages [] = ([], []) := by
  rw [extractMessages]
  rfl

theorem extractMessages_spec : ∀ (n : Nat) (buf : List Char), buf.length ≤ n →
    ((extractMessages buf).1.foldr (fun m acc => m ++ '\n' :: acc) (extractMessages buf).2 =
      buf) ∧
    (∀ m ∈ (extractMessages buf).1, '\n' ∉ m) ∧ '\n' ∉ (extractMessages buf).2 := by
  intro n
  induction n with
  | zero =>
      intro buf hlen
      have hb : buf = [] := by
        cases buf with
        | nil => rfl
        | cons c cs => simp at hlen
      subst hb
      exact ⟨by simp [extractMessages_nil], by simp [extractMessages_nil],
        by simp [extractMessages_nil]⟩
  | succ k ih =>
      intro buf hlen
      rw [extractMessages]
      split
      · rename_i heq
        refine ⟨rfl, by simp, ?_⟩
        intro hmem
        have hp := (List.dropWhile_eq_nil_iff.mp heq) _ hmem
        simp at hp
      · rename_i x rest heq
        have hx : (!(x == '\n')) = false :=
          dropWhile_head_eq_false (fun c => !(c == '\n')) buf x rest heq
        have hx2 : x = '\n' := by simpa using hx
        subst hx2
        have hbuf : buf.takeWhile (fun c => !(c == '\n')) ++ '\n' :: rest = buf := by
          conv_rhs => rw [← List.takeWhile_append_dropWhile (p := fun c => !(c == '\n')) (l := buf)]
          rw [heq]
        have hrest : rest.length ≤ k := by
          have hl : (buf.takeWhile (fun c => !(c == '\n')) ++ '\n' :: rest).length = buf.length := by
            rw [hbuf]
          simp only [List.length_append, List.length_cons] at hl
          omega
        obtain ⟨ihjoin, ihmsgs, ihrem⟩ := ih rest hrest
        dsimp only
        refine ⟨?_, ?_, ihrem⟩
        · rw [List.foldr_cons, ihjoin]
          exact hbuf
        · intro m hm
          rcases List.mem_cons.mp hm with hm | hm
          · subst hm
            intro hmem
            have hp := List.mem_takeWhile_imp hmem
            simp at hp
          · exact ihmsgs m hm

/-- **C8**: the data handler appends the arriving chunk to the
per-connection buffer and extracts, in order, every newline-terminated
prefix as one message, leaving exactly the unterminated suffix in the
buffer: re-joining the extracted messages, each followed by the newline that
terminated it, and then the leftover, reproduces `buffer ++ chunk`; no
extracted message and no leftover contains a newline.  Hence several
messages arriving in one read are all extracted, and a message split across
reads stays in the buffer until its newline arrives. -/
theorem data_handler_framing (buffer chunk : List Char) :
    ((onData buffer chunk).1.foldr (fun m acc => m ++ '\n' :: acc)
        (onData buffer chunk).2 = buffer ++ chunk) ∧
    (∀ m ∈ (onData buffer chunk).1, '\n' ∉ m) ∧
    '\n' ∉ (onData buffer chunk).2 :=
  extractMessages_spec (buffer ++ chunk).length (buffer ++ chunk) le_rfl

end HueMCP
